import Mathlib

set_option linter.unusedVariables false

/-!
Verification of core behaviours of the dali-core scene-graph / rendering
excerpt.  Each C++ component the claims touch is shallowly embedded as
executable Lean definitions; stateful methods become explicit
state-passing functions, and externally visible side effects (observer
removal, calls into the derived `OnDisconnect` hook, invocations of the
application-supplied frame-callback interface, backend GL calls) are
returned as explicit event lists so that "called exactly once / never
called again" properties can be stated and proved.
-/

namespace Dali

/-! ## ConstraintBase (dali/internal/update/animation/scene-graph-constraint-base.h)

The scene-graph `ConstraintBase` observes a set of property owners
(`mObservedOwners`, a vector of non-owned pointers — modelled as owner
ids).  `PropertyOwnerDestroyed` runs the disconnect sequence guarded by
`mDisconnected`; `PropertyOwnerDisconnected` forwards to it while
connected. -/

/-- `Dali::Constraint::RemoveAction` enum. -/
inductive RemoveAction where
  | BAKE
  | DISCARD
deriving DecidableEq, Repr

/-- `PropertyOwner::Observer::NotifyReturnType`. -/
inductive NotifyReturnType where
  | KEEP_OBSERVING
  | STOP_OBSERVING
deriving DecidableEq, Repr

/-- Externally visible effects of `ConstraintBase` methods: observer
registration / deregistration on property owners, and the call into the
derived class hook `OnDisconnect`. -/
inductive ConstraintEvent where
  | addObserver (owner : Nat)
  | removeObserver (owner : Nat)
  | onDisconnect
deriving DecidableEq, Repr

/-- State of a `ConstraintBase`: the `mDisconnected` guard bit, the
observed-owner container, and the plain-accessor fields from the header. -/
structure ConstraintBase where
  mRemoveAction : RemoveAction
  mFirstApply : Bool
  mDisconnected : Bool
  mObservedOwners : List Nat
deriving DecidableEq, Repr

/-- `ConstraintBase::StopObservation`: `RemoveObserver(*this)` on every
currently observed owner, then `mObservedOwners.Clear()`. -/
def ConstraintBase.StopObservation (c : ConstraintBase) :
    ConstraintBase × List ConstraintEvent :=
  ({ c with mObservedOwners := [] },
   c.mObservedOwners.map ConstraintEvent.removeObserver)

/-- `ConstraintBase::StartObservation`: `AddObserver(*this)` on every
owner in `mObservedOwners`. -/
def ConstraintBase.StartObservation (c : ConstraintBase) :
    ConstraintBase × List ConstraintEvent :=
  (c, c.mObservedOwners.map ConstraintEvent.addObserver)

/-- `ConstraintBase::OnConnect`: `StartObservation(); mDisconnected = false;`. -/
def ConstraintBase.OnConnect (c : ConstraintBase) :
    ConstraintBase × List ConstraintEvent :=
  let r := c.StartObservation
  ({ r.1 with mDisconnected := false }, r.2)

/-- `ConstraintBase::SetRemoveAction`. -/
def ConstraintBase.SetRemoveAction (c : ConstraintBase) (action : RemoveAction) :
    ConstraintBase :=
  { c with mRemoveAction := action }

/-- `ConstraintBase::GetRemoveAction`. -/
def ConstraintBase.GetRemoveAction (c : ConstraintBase) : RemoveAction :=
  c.mRemoveAction

/-- `ConstraintBase::PropertyOwnerDestroyed`: guarded by `!mDisconnected`,
it erases the destroyed owner from `mObservedOwners` (first occurrence, as
`std::find` + `Erase`), stops observing the remaining owners, calls the
derived `OnDisconnect` hook, and sets `mDisconnected = true`. -/
def ConstraintBase.PropertyOwnerDestroyed (c : ConstraintBase) (owner : Nat) :
    ConstraintBase × List ConstraintEvent :=
  if c.mDisconnected then (c, [])
  else
    let c1 : ConstraintBase := { c with mObservedOwners := c.mObservedOwners.erase owner }
    let r := c1.StopObservation
    ({ r.1 with mDisconnected := true }, r.2 ++ [ConstraintEvent.onDisconnect])

/-- `ConstraintBase::PropertyOwnerDisconnected`: while connected it runs
`PropertyOwnerDestroyed` (shared code path) and answers `STOP_OBSERVING`;
once disconnected it answers `KEEP_OBSERVING` with no effect. -/
def ConstraintBase.PropertyOwnerDisconnected (c : ConstraintBase)
    (bufferIndex : Nat) (owner : Nat) :
    ConstraintBase × List ConstraintEvent × NotifyReturnType :=
  if !c.mDisconnected then
    let r := c.PropertyOwnerDestroyed owner
    (r.1, r.2, NotifyReturnType.STOP_OBSERVING)
  else
    (c, [], NotifyReturnType.KEEP_OBSERVING)

/-- A call on the observer interface of a `ConstraintBase`. -/
inductive ConstraintCall where
  | destroyed (owner : Nat)
  | disconnected (bufferIndex : Nat) (owner : Nat)
deriving DecidableEq, Repr

/-- Dispatch one observer call, discarding the `NotifyReturnType`. -/
def ConstraintBase.applyCall (c : ConstraintBase) :
    ConstraintCall → ConstraintBase × List ConstraintEvent
  | ConstraintCall.destroyed owner => c.PropertyOwnerDestroyed owner
  | ConstraintCall.disconnected bufferIndex owner =>
    let r := c.PropertyOwnerDisconnected bufferIndex owner
    (r.1, r.2.1)

/-- Run a sequence of observer calls, accumulating the emitted events. -/
def ConstraintBase.runCalls :
    ConstraintBase → List ConstraintCall → ConstraintBase × List ConstraintEvent
  | c, [] => (c, [])
  | c, call :: rest =>
    let r1 := c.applyCall call
    let r2 := r1.1.runCalls rest
    (r2.1, r1.2 ++ r2.2)

/-- Once `mDisconnected` is set, every further observer call is a no-op. -/
theorem ConstraintBase.applyCall_of_disconnected (c : ConstraintBase)
    (h : c.mDisconnected = true) (call : ConstraintCall) :
    c.applyCall call = (c, []) := by
  cases call with
  | destroyed owner =>
    simp [ConstraintBase.applyCall, ConstraintBase.PropertyOwnerDestroyed, h]
  | disconnected bufferIndex owner =>
    simp [ConstraintBase.applyCall, ConstraintBase.PropertyOwnerDisconnected, h]

/-- Once `mDisconnected` is set, whole call sequences are no-ops. -/
theorem ConstraintBase.runCalls_of_disconnected (c : ConstraintBase)
    (h : c.mDisconnected = true) (calls : List ConstraintCall) :
    c.runCalls calls = (c, []) := by
  induction calls with
  | nil => rfl
  | cons call rest ih =>
    simp [ConstraintBase.runCalls, ConstraintBase.applyCall_of_disconnected c h, ih]

/-- C1: for a connected `ConstraintBase` (i.e. `mDisconnected = false`, as
established by `OnConnect`), the first `PropertyOwnerDestroyed` call runs
the full disconnect sequence exactly once — it erases the destroyed owner
from the observed set, emits a `removeObserver` for each remaining owner,
calls the derived `OnDisconnect` hook exactly once, and sets the
disconnected flag — and afterwards every further `PropertyOwnerDestroyed`
or `PropertyOwnerDisconnected` call leaves the state unchanged and emits
no event at all (in particular `OnDisconnect` is never called again).
The same holds when the sequence is triggered by a first
`PropertyOwnerDisconnected` while connected. -/
theorem C1_constraint_disconnect_runs_once (c : ConstraintBase) (owner : Nat)
    (hconn : c.mDisconnected = false) :
    (let r := c.PropertyOwnerDestroyed owner
     r.1.mDisconnected = true ∧
     r.1.mObservedOwners = [] ∧
     r.2 = (c.mObservedOwners.erase owner).map ConstraintEvent.removeObserver
            ++ [ConstraintEvent.onDisconnect] ∧
     r.2.count ConstraintEvent.onDisconnect = 1 ∧
     (∀ calls : List ConstraintCall, r.1.runCalls calls = (r.1, []))) ∧
    (let d := c.PropertyOwnerDisconnected 0 owner
     d.1 = (c.PropertyOwnerDestroyed owner).1 ∧
     d.2.1 = (c.PropertyOwnerDestroyed owner).2 ∧
     d.2.2 = NotifyReturnType.STOP_OBSERVING ∧
     (∀ calls : List ConstraintCall, d.1.runCalls calls = (d.1, []))) := by
  have hdisc : (c.PropertyOwnerDestroyed owner).1.mDisconnected = true := by
    simp [ConstraintBase.PropertyOwnerDestroyed, hconn, ConstraintBase.StopObservation]
  refine ⟨⟨?_, ?_, ?_, ?_, ?_⟩, ?_, ?_, ?_, ?_⟩
  · exact hdisc
  · simp [ConstraintBase.PropertyOwnerDestroyed, hconn, ConstraintBase.StopObservation]
  · simp [ConstraintBase.PropertyOwnerDestroyed, hconn, ConstraintBase.StopObservation]
  · have hmem : ConstraintEvent.onDisconnect ∉
        (c.mObservedOwners.erase owner).map ConstraintEvent.removeObserver := by
      simp [List.mem_map]
    simp [ConstraintBase.PropertyOwnerDestroyed, hconn, ConstraintBase.StopObservation,
      List.count_append, List.count_eq_zero.mpr hmem]
  · intro calls
    exact ConstraintBase.runCalls_of_disconnected _ hdisc calls
  · simp [ConstraintBase.PropertyOwnerDisconnected, hconn]
  · simp [ConstraintBase.PropertyOwnerDisconnected, hconn]
  · simp [ConstraintBase.PropertyOwnerDisconnected, hconn]
  · intro calls
    have h1 : (c.PropertyOwnerDisconnected 0 owner).1 =
        (c.PropertyOwnerDestroyed owner).1 := by
      simp [ConstraintBase.PropertyOwnerDisconnected, hconn]
    rw [h1]
    exact ConstraintBase.runCalls_of_disconnected _ hdisc calls

/-- Witness for C1 at a concrete connected constraint observing owners
`[3, 5]`, with owner `3` destroyed. -/
theorem C1_constraint_disconnect_runs_once_witness :
    (let c : ConstraintBase :=
      { mRemoveAction := RemoveAction.BAKE
        mFirstApply := true
        mDisconnected := false
        mObservedOwners := [3, 5] }
     c.mDisconnected = false ∧
     (c.PropertyOwnerDestroyed 3).1.mDisconnected = true ∧
     (c.PropertyOwnerDestroyed 3).2
       = [ConstraintEvent.removeObserver 5, ConstraintEvent.onDisconnect] ∧
     (c.PropertyOwnerDestroyed 3).1.runCalls
        [ConstraintCall.destroyed 5, ConstraintCall.disconnected 0 5]
       = ((c.PropertyOwnerDestroyed 3).1, [])) := by
  have h := C1_constraint_disconnect_runs_once
    { mRemoveAction := RemoveAction.BAKE
      mFirstApply := true
      mDisconnected := false
      mObservedOwners := [3, 5] } 3 rfl
  exact ⟨rfl, h.1.1, by decide,
    h.1.2.2.2.2 [ConstraintCall.destroyed 5, ConstraintCall.disconnected 0 5]⟩

/-! ## FrameCallback (scene-graph-frame-callback.h / .cpp)

The update-thread entity binding one application `FrameCallbackInterface`
to a scene-graph root.  `mUpdateProxy` and `mFrameCallbackInterface` are
pointers, modelled by their null-ness; `mValid` is the mutex-protected
validity flag.  The mutex makes `Update` / `Invalidate` bodies atomic, so
every concurrent execution is equivalent to some sequential interleaving
of the two critical sections, which we model as call sequences. -/

/-- State of a `SceneGraph::FrameCallback`. -/
structure FrameCallback where
  mHasUpdateProxy : Bool          -- whether `mUpdateProxy` is non-null
  mFrameCallbackInterface : Bool  -- whether the interface pointer is non-null
  mValid : Bool
deriving DecidableEq, Repr

/-- `FrameCallback::FrameCallback(FrameCallbackInterface*)`: stores the
interface pointer; `mValid{true}`, `mUpdateProxy{nullptr}` are the member
initialisers from the header. -/
def FrameCallback.New (hasInterface : Bool) : FrameCallback :=
  { mHasUpdateProxy := false
    mFrameCallbackInterface := hasInterface
    mValid := true }

/-- `FrameCallback::ConnectToSceneGraph`: allocates the update proxy. -/
def FrameCallback.ConnectToSceneGraph (c : FrameCallback) : FrameCallback :=
  { c with mHasUpdateProxy := true }

/-- `FrameCallback::Update(bufferIndex, elapsedSeconds, nodeHierarchyChanged)`:
if the proxy exists then, under the mutex, the application interface's
`Update` is invoked iff `mFrameCallbackInterface && mValid`, and
`continueCalling` is set to true in exactly that case.  Returns
(application interface invoked?, continueCalling); the state is
unchanged. -/
def FrameCallback.Update (c : FrameCallback) (bufferIndex : Nat)
    (elapsedSeconds : ℚ) (nodeHierarchyChanged : Bool) : Bool × Bool :=
  if c.mHasUpdateProxy then
    let invoked := c.mFrameCallbackInterface && c.mValid
    (invoked, invoked)
  else
    (false, false)

/-- `FrameCallback::Invalidate`: under the mutex, if the interface exists
and the callback is still valid, disconnect from the interface object and
clear `mValid` (the interface pointer itself is retained for comparisons). -/
def FrameCallback.Invalidate (c : FrameCallback) : FrameCallback :=
  if c.mFrameCallbackInterface && c.mValid then { c with mValid := false } else c

/-- `FrameCallback::PropertyOwnerDestroyed`: drops the update proxy and
invalidates. -/
def FrameCallback.PropertyOwnerDestroyed (c : FrameCallback) : FrameCallback :=
  ({ c with mHasUpdateProxy := false }).Invalidate

/-- One atomic operation on a `FrameCallback` (the mutex serialises the
`Update` and `Invalidate` critical sections). -/
inductive FrameCallbackOp where
  | update (bufferIndex : Nat) (elapsedSeconds : ℚ) (nodeHierarchyChanged : Bool)
  | invalidate
  | ownerDestroyed
deriving DecidableEq, Repr

/-- Apply one operation; the Bool records whether the application-supplied
`FrameCallbackInterface::Update` was invoked during this operation. -/
def FrameCallback.step (c : FrameCallback) :
    FrameCallbackOp → FrameCallback × Bool
  | FrameCallbackOp.update b e n => (c, (c.Update b e n).1)
  | FrameCallbackOp.invalidate => (c.Invalidate, false)
  | FrameCallbackOp.ownerDestroyed => (c.PropertyOwnerDestroyed, false)

/-- Run a sequence of operations; the Bool records whether the application
interface was invoked at any point of the sequence. -/
def FrameCallback.run : FrameCallback → List FrameCallbackOp → FrameCallback × Bool
  | c, [] => (c, false)
  | c, op :: ops =>
    let r1 := c.step op
    let r2 := r1.1.run ops
    (r2.1, r1.2 || r2.2)

/-- One step from an invalidated state keeps it invalidated and never
invokes the application interface. -/
theorem FrameCallback.step_of_invalid (c : FrameCallback)
    (h : c.mValid = false) (op : FrameCallbackOp) :
    (c.step op).1.mValid = false ∧ (c.step op).2 = false := by
  cases op with
  | update b e n =>
    constructor
    · exact h
    · simp [FrameCallback.step, FrameCallback.Update, h]
  | invalidate =>
    simp [FrameCallback.step, FrameCallback.Invalidate, h]
  | ownerDestroyed =>
    simp [FrameCallback.step, FrameCallback.PropertyOwnerDestroyed,
      FrameCallback.Invalidate, h]

/-- C2: once `Invalidate()` has completed with the validity flag cleared
(`mValid = false`), every subsequent sequence of `Update` / `Invalidate` /
`PropertyOwnerDestroyed` operations never invokes the application-supplied
`FrameCallbackInterface::Update` again, keeps the flag cleared, and every
individual `Update` call reports `continueCalling = false`. -/
theorem C2_frame_callback_never_called_after_invalidate (c : FrameCallback)
    (h : c.mValid = false) :
    (∀ ops : List FrameCallbackOp,
      (c.run ops).2 = false ∧ (c.run ops).1.mValid = false) ∧
    (∀ (b : Nat) (e : ℚ) (n : Bool), c.Update b e n = (false, false)) := by
  constructor
  · intro ops
    induction ops generalizing c with
    | nil => exact ⟨rfl, h⟩
    | cons op rest ih =>
      have hs := FrameCallback.step_of_invalid c h op
      have hr := ih (c.step op).1 hs.1
      refine ⟨?_, ?_⟩
      · show ((c.step op).2 || ((c.step op).1.run rest).2) = false
        rw [hs.2, hr.1]
        rfl
      · exact hr.2
  · intro b e n
    simp [FrameCallback.Update, h]

/-- Witness for C2: a freshly connected callback that has been invalidated,
then driven through an update / invalidate / owner-destroyed sequence. -/
theorem C2_frame_callback_never_called_after_invalidate_witness :
    (let c := ((FrameCallback.New true).ConnectToSceneGraph).Invalidate
     c.mValid = false ∧
     (c.run [FrameCallbackOp.update 0 1 true, FrameCallbackOp.invalidate,
             FrameCallbackOp.ownerDestroyed, FrameCallbackOp.update 1 1 false]).2
        = false ∧
     c.Update 0 1 true = (false, false)) := by
  have h := C2_frame_callback_never_called_after_invalidate
    (((FrameCallback.New true).ConnectToSceneGraph).Invalidate) rfl
  exact ⟨rfl,
    (h.1 [FrameCallbackOp.update 0 1 true, FrameCallbackOp.invalidate,
          FrameCallbackOp.ownerDestroyed, FrameCallbackOp.update 1 1 false]).1,
    h.2 0 1 true⟩

/-! ## ShaderData (shader-data.h)

Container for shader source and its cache-lookup hash.  `mShaderHash` is a
`std::size_t` initialised to `size_t(-1)` by every constructor; on a 64-bit
platform numbers are taken modulo `2^64` and the sentinel is `2^64 - 1`.
The `DALI_ASSERT_DEBUG` preconditions of `SetHashValue` / `GetHashValue`
are modelled as explicit `Prop`s.  (The version-tag parsing fields are not
needed by any claim and are omitted.) -/

/-- `size_t(-1)`: the uninitialised-hash sentinel on a 64-bit platform. -/
def SIZE_T_MAX : Nat := 2 ^ 64 - 1

/-- `StringToVector`: the characters of the string followed by `'\0'`. -/
def StringToVector (s : String) : List Char :=
  s.toList ++ [Char.ofNat 0]

/-- `Graphics::ShaderSourceMode`. -/
inductive ShaderSourceMode where
  | TEXT
  | BINARY
deriving DecidableEq, Repr

/-- State of a `ShaderData` (claim-relevant fields). -/
structure ShaderData where
  mShaderHash : Nat
  mVertexShader : List Char
  mFragmentShader : List Char
  mHints : Nat
  mSourceMode : ShaderSourceMode
  mRenderPassTag : Nat
  mName : String
deriving DecidableEq, Repr

/-- The text-source `ShaderData` constructor: `mShaderHash(-1)`, shader
sources converted via `StringToVector`, `TEXT` source mode. -/
def ShaderData.create (vertexSource fragmentSource : String) (hints : Nat)
    (renderPassTag : Nat) (name : String) : ShaderData :=
  { mShaderHash := SIZE_T_MAX
    mVertexShader := StringToVector vertexSource
    mFragmentShader := StringToVector fragmentSource
    mHints := hints
    mSourceMode := ShaderSourceMode.TEXT
    mRenderPassTag := renderPassTag
    mName := name }

/-- `DALI_ASSERT_DEBUG(shaderHash != size_t(-1))` in `SetHashValue`. -/
def ShaderData.SetHashValuePre (shaderHash : Nat) : Prop :=
  shaderHash % 2 ^ 64 ≠ SIZE_T_MAX

/-- `ShaderData::SetHashValue`: stores the hash (as a 64-bit `size_t`). -/
def ShaderData.SetHashValue (s : ShaderData) (shaderHash : Nat) : ShaderData :=
  { s with mShaderHash := shaderHash % 2 ^ 64 }

/-- `DALI_ASSERT_DEBUG(mShaderHash != size_t(-1))` in `GetHashValue`: the
read precondition that a hash has been stored. -/
def ShaderData.GetHashValuePre (s : ShaderData) : Prop :=
  s.mShaderHash ≠ SIZE_T_MAX

/-- `ShaderData::GetHashValue`. -/
def ShaderData.GetHashValue (s : ShaderData) : Nat :=
  s.mShaderHash

instance (s : ShaderData) : Decidable s.GetHashValuePre := by
  unfold ShaderData.GetHashValuePre
  infer_instance

/-- C9: the `ShaderData` hash is write-once read-many: a freshly
constructed `ShaderData` still holds the sentinel `size_t(-1)`, so reading
the hash before writing it violates the debug-assert read precondition;
and after `SetHashValue h` with `h ≠ size_t(-1)` (a 64-bit value), the
precondition holds and `GetHashValue` returns exactly `h`. -/
theorem C9_shader_data_hash_write_once
    (vertexSource fragmentSource : String) (hints renderPassTag : Nat)
    (name : String) (h : Nat) (hlt : h < 2 ^ 64) (hne : h ≠ SIZE_T_MAX) :
    (¬ (ShaderData.create vertexSource fragmentSource hints renderPassTag
          name).GetHashValuePre) ∧
    ((ShaderData.create vertexSource fragmentSource hints renderPassTag
          name).SetHashValue h).GetHashValuePre ∧
    ((ShaderData.create vertexSource fragmentSource hints renderPassTag
          name).SetHashValue h).GetHashValue = h := by
  have hmod : h % 2 ^ 64 = h := Nat.mod_eq_of_lt hlt
  refine ⟨?_, ?_, ?_⟩
  · intro hpre
    exact hpre rfl
  · show h % 2 ^ 64 ≠ SIZE_T_MAX
    rw [hmod]
    exact hne
  · show h % 2 ^ 64 = h
    exact hmod

/-- Witness for C9 at a concrete shader and hash value 12345. -/
theorem C9_shader_data_hash_write_once_witness :
    (¬ (ShaderData.create "vert" "frag" 0 0 "shader").GetHashValuePre) ∧
    ((ShaderData.create "vert" "frag" 0 0 "shader").SetHashValue
        12345).GetHashValue = 12345 := by
  have h := C9_shader_data_hash_write_once "vert" "frag" 0 0 "shader" 12345
    (by norm_num) (by norm_num [SIZE_T_MAX])
  exact ⟨h.1, h.2.2⟩

/-! ## ConvertScreenToLocal (actor-coords.cpp)

Screen-to-local coordinate conversion.  The arithmetic helpers
(`Matrix::Multiply`, `Matrix::Invert`, `Unproject`, `XyPlaneIntersect`)
live outside the excerpt, so the embedding is parameterised over them;
fallible helpers (C++ bool-returning with an out-parameter) become
`Option`-valued.  Scalars are modelled as rationals.  The in-out
parameters `localX` / `localY` are threaded explicitly: the function
receives their incoming values and returns their final values together
with the success flag, writing them only on the one success path —
exactly as in the C++ control flow. -/

/-- A 3-component vector of scalars. -/
structure Vector3 where
  x : ℚ
  y : ℚ
  z : ℚ
deriving DecidableEq, Repr

/-- A 4-component vector of scalars. -/
structure Vector4 where
  x : ℚ
  y : ℚ
  z : ℚ
  w : ℚ
deriving DecidableEq, Repr

/-- A viewport; the C++ integer fields are used after `static_cast<float>`,
so they are modelled directly as scalars. -/
structure Viewport where
  x : ℚ
  y : ℚ
  width : ℚ
  height : ℚ
deriving DecidableEq, Repr

/-- `ConvertScreenToLocal`, parameterised over the external matrix /
projection helpers.  Returns `(success, localX, localY)` where the two
scalars are the final values of the in-out parameters. -/
def ConvertScreenToLocal {M : Type}
    (multiply : M → M → M)
    (invert : M → Option M)
    (unproject : Vector4 → M → ℚ → ℚ → Option Vector4)
    (xyPlaneIntersect : Vector4 → Vector4 → Option Vector4)
    (viewMatrix projectionMatrix worldMatrix : M)
    (currentSize : Vector3)
    (viewport : Viewport)
    (localX localY : ℚ)
    (screenX screenY : ℚ) : Bool × ℚ × ℚ :=
  let modelView := multiply worldMatrix viewMatrix
  match invert (multiply modelView projectionMatrix) with
  | none => (false, localX, localY)
  | some invertedMvp =>
    let screenPos : Vector4 :=
      { x := screenX - viewport.x
        y := viewport.height - screenY - viewport.y
        z := 0
        w := 1 }
    match unproject screenPos invertedMvp viewport.width viewport.height with
    | none => (false, localX, localY)
    | some nearPos =>
      match unproject { screenPos with z := 1 } invertedMvp
          viewport.width viewport.height with
      | none => (false, localX, localY)
      | some farPos =>
        match xyPlaneIntersect nearPos farPos with
        | none => (false, localX, localY)
        | some localPos =>
          (true,
           localPos.x + currentSize.x * (1 / 2),
           localPos.y + currentSize.y * (1 / 2))

/-- C10: whenever `ConvertScreenToLocal` returns false — failed matrix
inversion, failed unprojection of the near or far point, or no
intersection with the XY plane — the out-parameters `localX` / `localY`
keep their incoming values; they are written only on the success path. -/
theorem C10_convert_screen_to_local_frame {M : Type}
    (multiply : M → M → M)
    (invert : M → Option M)
    (unproject : Vector4 → M → ℚ → ℚ → Option Vector4)
    (xyPlaneIntersect : Vector4 → Vector4 → Option Vector4)
    (viewMatrix projectionMatrix worldMatrix : M)
    (currentSize : Vector3)
    (viewport : Viewport)
    (localX localY : ℚ)
    (screenX screenY : ℚ)
    (hfail : (ConvertScreenToLocal multiply invert unproject xyPlaneIntersect
        viewMatrix projectionMatrix worldMatrix currentSize viewport
        localX localY screenX screenY).1 = false) :
    (ConvertScreenToLocal multiply invert unproject xyPlaneIntersect
        viewMatrix projectionMatrix worldMatrix currentSize viewport
        localX localY screenX screenY).2.1 = localX ∧
    (ConvertScreenToLocal multiply invert unproject xyPlaneIntersect
        viewMatrix projectionMatrix worldMatrix currentSize viewport
        localX localY screenX screenY).2.2 = localY := by
  unfold ConvertScreenToLocal at hfail ⊢
  rcases hinv : invert (multiply (multiply worldMatrix viewMatrix)
      projectionMatrix) with _ | invertedMvp <;> simp only [hinv] at hfail ⊢
  · exact ⟨trivial, trivial⟩
  · rcases hnear : unproject
        { x := screenX - viewport.x,
          y := viewport.height - screenY - viewport.y, z := 0, w := 1 }
        invertedMvp viewport.width viewport.height with _ | nearPos <;>
      simp only [hnear] at hfail ⊢
    · exact ⟨trivial, trivial⟩
    · rcases hfar : unproject
          { x := screenX - viewport.x,
            y := viewport.height - screenY - viewport.y, z := 1, w := 1 }
          invertedMvp viewport.width viewport.height with _ | farPos <;>
        simp only [hfar] at hfail ⊢
      · exact ⟨trivial, trivial⟩
      · rcases hxy : xyPlaneIntersect nearPos farPos with _ | localPos <;>
          simp only [hxy] at hfail ⊢
        · exact ⟨trivial, trivial⟩
        · simp at hfail

/-- Witness for C10: with a trivial matrix type and an inversion that
fails, the conversion fails and leaves `localX = 9`, `localY = 11`
untouched. -/
theorem C10_convert_screen_to_local_frame_witness :
    (ConvertScreenToLocal (M := Unit) (fun _ _ => ()) (fun _ => none)
        (fun _ _ _ _ => none) (fun _ _ => none) () () ()
        ⟨64, 64, 0⟩ ⟨0, 0, 480, 800⟩ 9 11 240 400).2.1 = 9 ∧
    (ConvertScreenToLocal (M := Unit) (fun _ _ => ()) (fun _ => none)
        (fun _ _ _ _ => none) (fun _ _ => none) () () ()
        ⟨64, 64, 0⟩ ⟨0, 0, 480, 800⟩ 9 11 240 400).2.2 = 11 :=
  C10_convert_screen_to_local_frame (M := Unit) (fun _ _ => ()) (fun _ => none)
    (fun _ _ _ _ => none) (fun _ _ => none) () () ()
    ⟨64, 64, 0⟩ ⟨0, 0, 480, 800⟩ 9 11 240 400 rfl

/-! ## Texture upload path

The internal `Render::Texture` implementation is not part of the excerpt
(only its tests are), so the update→render texture contract is modelled
from the specification's §4.7 upload contract. -/

/-- Modelled from the spec: the texture type of the missing internal
texture resource (2D or cube-map variant). -/
inductive TextureType where
  | TEXTURE_2D
  | TEXTURE_CUBE
deriving DecidableEq, Repr

/-- Modelled from the spec: a backend GL texture call issued by the
missing upload path — a full-image storage/upload call (`TexImage2D`) or a
sub-region call (`TexSubImage2D`), carrying the target face (0 for 2D,
0–5 for cube faces), mip level and rectangle. -/
inductive BackendCall where
  | TexImage2D (face : Nat) (mipLevel : Nat) (width height : Nat)
  | TexSubImage2D (face : Nat) (mipLevel : Nat) (x y width height : Nat)
deriving DecidableEq, Repr

/-- Modelled from the spec: the update-side texture resource of the
missing implementation: type, create-time extent, and whether pixel data
has previously been uploaded. -/
structure TextureResource where
  ttype : TextureType
  width : Nat
  height : Nat
  hasData : Bool
deriving DecidableEq, Repr

/-- Modelled from the spec: creating a texture reserves backend storage —
one full-image call for a 2D texture, and six independent reservation
calls (one per cube face) for a cube texture, each carrying the texture's
width/height.  Returns the fresh resource and the reservation calls. -/
def CreateTextureResource (ttype : TextureType) (width height : Nat) :
    TextureResource × List BackendCall :=
  ({ ttype := ttype, width := width, height := height, hasData := false },
   match ttype with
   | TextureType.TEXTURE_2D => [BackendCall.TexImage2D 0 0 width height]
   | TextureType.TEXTURE_CUBE =>
     (List.range 6).map (fun face => BackendCall.TexImage2D face 0 width height))

/-- Modelled from the spec: the missing upload decision of
`Render::Texture::Upload` — if the rectangle equals the full extent at
mip 0 and no prior data exists, the backend is instructed to reserve full
storage (full-image call); otherwise a sub-region call is issued. -/
def UploadDecision (t : TextureResource) (mipLevel x y width height : Nat) :
    BackendCall :=
  if mipLevel = 0 ∧ x = 0 ∧ y = 0 ∧ width = t.width ∧ height = t.height ∧
      t.hasData = false then
    BackendCall.TexImage2D 0 mipLevel width height
  else
    BackendCall.TexSubImage2D 0 mipLevel x y width height

/-- Modelled from the spec: one `Upload` request on the missing
update-side texture: it issues exactly one backend call, decided by
`UploadDecision`, and marks the texture as holding data. -/
def TextureResource.Upload (t : TextureResource)
    (mipLevel x y width height : Nat) : TextureResource × List BackendCall :=
  ({ t with hasData := true }, [UploadDecision t mipLevel x y width height])

/-- C3: on a 2D texture with no prior data, an `Upload` whose rectangle
equals the full create-time extent at mip level 0 issues exactly one
full-image backend call (`TexImage2D` with the create-sized rectangle);
and any `Upload` whose rectangle is strictly smaller than the full extent
issues exactly one sub-image call (`TexSubImage2D` with that rectangle)
and no full-image call at all. -/
theorem C3_texture_upload_full_vs_sub (t : TextureResource)
    (hnodata : t.hasData = false) :
    ((t.Upload 0 0 0 t.width t.height).2
        = [BackendCall.TexImage2D 0 0 t.width t.height]) ∧
    (∀ t2 : TextureResource, ∀ mipLevel x y width height : Nat,
      width < t2.width ∨ height < t2.height →
      (t2.Upload mipLevel x y width height).2
          = [BackendCall.TexSubImage2D 0 mipLevel x y width height] ∧
      (∀ f m w2 h2 : Nat,
        BackendCall.TexImage2D f m w2 h2 ∉
          (t2.Upload mipLevel x y width height).2)) := by
  constructor
  · simp [TextureResource.Upload, UploadDecision, hnodata]
  · intro t2 mipLevel x y width height hsmall
    have hguard : ¬(mipLevel = 0 ∧ x = 0 ∧ y = 0 ∧ width = t2.width ∧
        height = t2.height ∧ t2.hasData = false) := by
      rintro ⟨-, -, -, hw, hh, -⟩
      rcases hsmall with hlt | hlt
      · exact absurd hw (Nat.ne_of_lt hlt)
      · exact absurd hh (Nat.ne_of_lt hlt)
    constructor
    · simp [TextureResource.Upload, UploadDecision, hguard]
    · intro f m w2 h2
      simp [TextureResource.Upload, UploadDecision, hguard]

/-- Witness for C3 on a fresh 64×64 2D texture: the full 64×64 upload
gives one `TexImage2D(0,0,64,64)` and a 32×32 upload gives one
`TexSubImage2D(0,0,0,0,32,32)` and no `TexImage2D`. -/
theorem C3_texture_upload_full_vs_sub_witness :
    (let t := (CreateTextureResource TextureType.TEXTURE_2D 64 64).1
     (t.Upload 0 0 0 64 64).2 = [BackendCall.TexImage2D 0 0 64 64] ∧
     (t.Upload 0 0 0 32 32).2 = [BackendCall.TexSubImage2D 0 0 0 0 32 32] ∧
     BackendCall.TexImage2D 0 0 32 32 ∉ (t.Upload 0 0 0 32 32).2) := by
  have h := C3_texture_upload_full_vs_sub
    (CreateTextureResource TextureType.TEXTURE_2D 64 64).1 rfl
  have h2 := h.2 (CreateTextureResource TextureType.TEXTURE_2D 64 64).1
    0 0 0 32 32 (Or.inl (by norm_num [CreateTextureResource]))
  exact ⟨h.1, h2.1, h2.2 0 0 32 32⟩

/-- C5: creating a cube-map texture issues exactly six backend
storage-reservation calls at creation time, one per cube face (faces
0–5, each exactly once), each carrying the cube texture's width and
height. -/
theorem C5_cube_texture_six_reservations (width height : Nat) :
    ((CreateTextureResource TextureType.TEXTURE_CUBE width height).2.length
        = 6) ∧
    ((CreateTextureResource TextureType.TEXTURE_CUBE width height).2
        = [BackendCall.TexImage2D 0 0 width height,
           BackendCall.TexImage2D 1 0 width height,
           BackendCall.TexImage2D 2 0 width height,
           BackendCall.TexImage2D 3 0 width height,
           BackendCall.TexImage2D 4 0 width height,
           BackendCall.TexImage2D 5 0 width height]) := by
  constructor
  · rfl
  · rfl

/-! ## Native-image-backed texture lifecycle

The native-image texture create/retry/destroy path is not part of the
excerpt (only its tests are); it is modelled from the specification's
§4.7 / §7 transient-failure contract. -/

/-- Modelled from the spec: the observable state of the missing
native-image texture extension — the create / destroy call counters the
tests observe, the number of flagged transient create failures remaining,
and whether a successfully created backend resource is live. -/
structure NativeImageState where
  createCalls : Nat
  destroyCalls : Nat
  failuresRemaining : Nat
  resourceLive : Bool
deriving DecidableEq, Repr

/-- Modelled from the spec: a fresh native image flagged to fail its
create path `flaggedFailures` times. -/
def NativeImageState.initial (flaggedFailures : Nat) : NativeImageState :=
  { createCalls := 0
    destroyCalls := 0
    failuresRemaining := flaggedFailures
    resourceLive := false }

/-- Modelled from the spec: one backend create attempt of the missing
native texture path.  It always counts one create call; a flagged
transient failure consumes one flagged failure and the partially created
resource is destroyed again (keeping create/destroy 1:1); otherwise the
resource becomes live.  Returns the new state and whether the attempt
succeeded. -/
def NativeCreate (s : NativeImageState) : NativeImageState × Bool :=
  if s.failuresRemaining > 0 then
    ({ s with createCalls := s.createCalls + 1
              destroyCalls := s.destroyCalls + 1
              failuresRemaining := s.failuresRemaining - 1 }, false)
  else
    ({ s with createCalls := s.createCalls + 1, resourceLive := true }, true)

/-- Modelled from the spec: binding a native-image texture — if no live
resource exists, one create attempt is made; if that attempt fails with a
flagged transient error, exactly one retry occurs at bind time. -/
def NativeBind (s : NativeImageState) : NativeImageState :=
  if s.resourceLive then s
  else
    let r := NativeCreate s
    if r.2 then r.1 else (NativeCreate r.1).1

/-- Modelled from the spec: full teardown of the native texture — the one
successful create (if any) is paired with exactly one destroy; with no
live resource nothing is called. -/
def NativeTeardown (s : NativeImageState) : NativeImageState :=
  if s.resourceLive then
    { s with destroyCalls := s.destroyCalls + 1, resourceLive := false }
  else s

/-- C4: for a native-image texture flagged to fail the create path exactly
once, the first bind performs the initial create attempt plus exactly one
bind-time retry (2 create calls, with the failed attempt's cleanup giving
1 destroy call); after full teardown the create and destroy counts
balance (2 = 2) and no further create or destroy calls occur (teardown is
then a no-op); moreover the counts balance after teardown for any number
of flagged failures. -/
theorem C4_native_image_create_destroy_balance :
    (let s1 := NativeBind (NativeImageState.initial 1)
     s1.createCalls = 2 ∧ s1.destroyCalls = 1 ∧
     (let s2 := NativeTeardown s1
      s2.createCalls = 2 ∧ s2.destroyCalls = 2 ∧
      s2.createCalls = s2.destroyCalls ∧
      NativeTeardown s2 = s2)) ∧
    (∀ flaggedFailures : Nat,
      (NativeTeardown (NativeBind (NativeImageState.initial
          flaggedFailures))).createCalls
        = (NativeTeardown (NativeBind (NativeImageState.initial
          flaggedFailures))).destroyCalls) := by
  constructor
  · refine ⟨rfl, rfl, rfl, rfl, rfl, rfl⟩
  · intro flaggedFailures
    match flaggedFailures with
    | 0 => rfl
    | 1 => rfl
    | n + 2 =>
      simp [NativeImageState.initial, NativeBind, NativeCreate, NativeTeardown]

/-! ## Empty texture handle operations

The public `Dali::Texture` handle implementation is not part of the
excerpt (only its negative tests are); the uninitialised-handle failure
contract is modelled from the specification's §4.7 / §7 error taxonomy. -/

/-- Modelled from the spec: the internal texture object an initialised
handle points at. -/
structure TextureObject where
  width : Nat
  height : Nat
deriving DecidableEq, Repr

/-- Modelled from the spec: an application-thread `Dali::Texture` handle;
`none` is the uninitialised (empty) handle of the missing handle class. -/
def TextureHandle : Type := Option TextureObject

/-- Modelled from the spec: the catchable failure raised at the API
boundary when an operation is invoked on an uninitialised handle. -/
inductive DaliException where
  | uninitializedHandle
deriving DecidableEq, Repr

/-- Modelled from the spec: `Texture::GetWidth` on a handle — raises a
catchable failure on an empty handle. -/
def TextureHandle.GetWidth : TextureHandle → Except DaliException Nat
  | none => Except.error DaliException.uninitializedHandle
  | some t => Except.ok t.width

/-- Modelled from the spec: `Texture::GetHeight` on a handle — raises a
catchable failure on an empty handle. -/
def TextureHandle.GetHeight : TextureHandle → Except DaliException Nat
  | none => Except.error DaliException.uninitializedHandle
  | some t => Except.ok t.height

/-- Modelled from the spec: `Texture::GenerateMipmaps` on a handle —
raises a catchable failure on an empty handle. -/
def TextureHandle.GenerateMipmaps : TextureHandle → Except DaliException Unit
  | none => Except.error DaliException.uninitializedHandle
  | some _ => Except.ok ()

/-- Modelled from the spec: `Texture::Upload(pixelData, ...)` on a handle
— raises a catchable failure on an empty handle (the pixel payload is
opaque to this contract). -/
def TextureHandle.Upload : TextureHandle → List Nat → Except DaliException Unit
  | none, _ => Except.error DaliException.uninitializedHandle
  | some _, _ => Except.ok ()

/-- C6: every operation — `Upload`, `GenerateMipmaps`, `GetWidth`,
`GetHeight` — invoked on the uninitialised (empty) texture handle raises
a catchable failure instead of returning normally, while the same
operations succeed on an initialised handle. -/
theorem C6_empty_handle_operations_fail :
    (∀ pixelData : List Nat,
      TextureHandle.Upload none pixelData
        = Except.error DaliException.uninitializedHandle) ∧
    TextureHandle.GenerateMipmaps none
        = Except.error DaliException.uninitializedHandle ∧
    TextureHandle.GetWidth none
        = Except.error DaliException.uninitializedHandle ∧
    TextureHandle.GetHeight none
        = Except.error DaliException.uninitializedHandle ∧
    TextureHandle.GetWidth (some { width := 64, height := 64 })
        = Except.ok 64 ∧
    TextureHandle.GetHeight (some { width := 64, height := 64 })
        = Except.ok 64 := by
  exact ⟨fun _ => rfl, rfl, rfl, rfl, rfl, rfl⟩

/-! ## AnimationPlaylist

Only the header of `AnimationPlaylist` is in the excerpt; the bodies of
`OnClear`, `EventLoopFinished` and `NotifyCompleted` are modelled from
the specification's §4.5 contract and the header's member documentation.
Animations are identified by their scene-graph notify id. -/

/-- Modelled from the spec: the observable state of the missing
`AnimationPlaylist` implementation — the currently playing set
(`mPlaylist`, strong handles) and the ignore set of cleared animations
(`mIgnoredAnimations`), both keyed by notify id. -/
structure AnimationPlaylist where
  mPlaylist : List Nat
  mIgnoredAnimations : List Nat
deriving DecidableEq, Repr

/-- Modelled from the spec: a freshly constructed playlist. -/
def AnimationPlaylist.New : AnimationPlaylist :=
  { mPlaylist := [], mIgnoredAnimations := [] }

/-- Modelled from the spec: `AnimationPlaylist::OnPlay` inserts a strong
handle into the playing set (a `std::set`, so at most once). -/
def AnimationPlaylist.OnPlay (p : AnimationPlaylist) (notifyId : Nat) :
    AnimationPlaylist :=
  { p with mPlaylist :=
      if notifyId ∈ p.mPlaylist then p.mPlaylist else p.mPlaylist ++ [notifyId] }

/-- Modelled from the spec: `AnimationPlaylist::OnClear(animation,
ignoreRequired)` removes the animation from the playing set; if
`ignoreRequired` is true its notify id is recorded in the ignore set for
the remainder of the current event-loop turn. -/
def AnimationPlaylist.OnClear (p : AnimationPlaylist) (notifyId : Nat)
    (ignoreRequired : Bool) : AnimationPlaylist :=
  { mPlaylist := p.mPlaylist.erase notifyId
    mIgnoredAnimations :=
      if ignoreRequired then
        if notifyId ∈ p.mIgnoredAnimations then p.mIgnoredAnimations
        else p.mIgnoredAnimations ++ [notifyId]
      else p.mIgnoredAnimations }

/-- Modelled from the spec: `AnimationPlaylist::EventLoopFinished` clears
the ignore set, re-arming normal notification delivery. -/
def AnimationPlaylist.EventLoopFinished (p : AnimationPlaylist) :
    AnimationPlaylist :=
  { p with mIgnoredAnimations := [] }

/-- Modelled from the spec: `AnimationPlaylist::NotifyCompleted(list)`
removes each completed animation from the playing set and, unless its id
is in the ignore set, raises the application-visible Finished signal.
Returns the new state and the notify ids for which Finished is raised. -/
def AnimationPlaylist.NotifyCompleted (p : AnimationPlaylist)
    (notifierList : List Nat) : AnimationPlaylist × List Nat :=
  let remaining :=
    notifierList.foldl (fun playing notifyId => playing.erase notifyId)
      p.mPlaylist
  let finished :=
    notifierList.filter (fun notifyId =>
      decide (notifyId ∉ p.mIgnoredAnimations))
  ({ p with mPlaylist := remaining }, finished)

/-- C7: clearing an animation with `ignoreRequired = true` records its
notify id in the ignore set, so `NotifyCompleted` raises no Finished
notification for that id — for any completed list, for as long as the
ignore set has not been cleared; `EventLoopFinished` empties the ignore
set, after which `NotifyCompleted` delivers the Finished notification for
that notify id again. -/
theorem C7_cleared_animation_notification_suppressed
    (p : AnimationPlaylist) (notifyId : Nat) :
    (let p1 := p.OnClear notifyId true
     notifyId ∈ p1.mIgnoredAnimations ∧
     (∀ notifierList : List Nat,
        notifyId ∉ (p1.NotifyCompleted notifierList).2) ∧
     (p1.EventLoopFinished).mIgnoredAnimations = [] ∧
     (∀ notifierList : List Nat, notifyId ∈ notifierList →
        notifyId ∈ ((p1.EventLoopFinished).NotifyCompleted notifierList).2)) := by
  have hmem : notifyId ∈ (p.OnClear notifyId true).mIgnoredAnimations := by
    simp only [AnimationPlaylist.OnClear, if_pos rfl]
    by_cases h : notifyId ∈ p.mIgnoredAnimations
    · simp [h]
    · simp [h]
  refine ⟨hmem, ?_, rfl, ?_⟩
  · intro notifierList hin
    simp only [AnimationPlaylist.NotifyCompleted] at hin
    have := (List.mem_filter.mp hin).2
    simp only [decide_eq_true_eq] at this
    exact this hmem
  · intro notifierList hin
    simp only [AnimationPlaylist.NotifyCompleted]
    refine List.mem_filter.mpr ⟨hin, ?_⟩
    simp [AnimationPlaylist.EventLoopFinished]

/-- Witness for C7: animation 7 playing, cleared with `ignoreRequired`,
completing in the same frame, then a later frame after
`EventLoopFinished`. -/
theorem C7_cleared_animation_notification_suppressed_witness :
    (let p1 := (AnimationPlaylist.New.OnPlay 7).OnClear 7 true
     7 ∈ p1.mIgnoredAnimations ∧
     7 ∉ (p1.NotifyCompleted [7]).2 ∧
     7 ∈ ((p1.EventLoopFinished).NotifyCompleted [7]).2) := by
  have h := C7_cleared_animation_notification_suppressed
    (AnimationPlaylist.New.OnPlay 7) 7
  exact ⟨h.1, h.2.1 [7], h.2.2.2 [7] (by simp)⟩

/-! ## FixedSizeMemoryPool keys

`MemoryPoolObjectAllocator` (in the excerpt) delegates `GetPtrFromKey` /
`GetKeyFromPtr` to `FixedSizeMemoryPool`, whose implementation is not
part of the excerpt; the key scheme is modelled from the specification's
§4.1 growth policy: blocks grow from 32 entries doubling up to 1M entries
per block, at most 27 blocks, and the 32-bit key is the linear index of
the slot (entries of earlier blocks first). -/

/-- Modelled from the spec: capacity of the memory-pool block with the
given index — starts at 32 and doubles, capped at 1024·1024 entries. -/
def blockCapacity (blockIndex : Nat) : Nat :=
  min (32 * 2 ^ blockIndex) (1024 * 1024)

/-- Modelled from the spec: the bound on the number of blocks
(`POOL_MAX_BLOCK_COUNT = 27` in `MemoryPoolObjectAllocator`). -/
def POOL_MAX_BLOCK_COUNT : Nat := 27

/-- Modelled from the spec: total capacity of `count` consecutive blocks
starting at block `start`. -/
def sumBlockCapacity (start : Nat) : Nat → Nat
  | 0 => 0
  | count + 1 => blockCapacity start + sumBlockCapacity (start + 1) count

/-- Modelled from the spec: the address of a pool slot — the block it
lives in and its entry index inside that block.  A pointer returned by
`Allocate()` corresponds to a slot with `blockIndex <
POOL_MAX_BLOCK_COUNT` and `entryIndex < blockCapacity blockIndex`. -/
structure PoolSlot where
  blockIndex : Nat
  entryIndex : Nat
deriving DecidableEq, Repr

/-- Modelled from the spec: `GetKeyFromPtr` — the 32-bit key of a slot is
its linear index: the entries of all earlier blocks plus the entry index
within its block. -/
def GetKeyFromPtr (p : PoolSlot) : Nat :=
  sumBlockCapacity 0 p.blockIndex + p.entryIndex

/-- Modelled from the spec: walk the blocks from `blockIndex` on, peeling
the capacity of each block off the key until the owning block is found;
`fuel` bounds the walk by the remaining block count. -/
def findSlot : Nat → Nat → Nat → Option PoolSlot
  | 0, _, _ => none
  | fuel + 1, blockIndex, key =>
    if key < blockCapacity blockIndex then
      some { blockIndex := blockIndex, entryIndex := key }
    else
      findSlot fuel (blockIndex + 1) (key - blockCapacity blockIndex)

/-- Modelled from the spec: `GetPtrFromKey` — decode a key back to the
slot it indexes, over at most `POOL_MAX_BLOCK_COUNT` blocks. -/
def GetPtrFromKey (key : Nat) : Option PoolSlot :=
  findSlot POOL_MAX_BLOCK_COUNT 0 key

/-- Decoding inverts encoding, block walk version: starting the walk at
block `start` with the key offset by `count` whole blocks finds exactly
the slot `(start + count, entryIndex)`. -/
theorem findSlot_sumBlockCapacity (count : Nat) :
    ∀ fuel start entryIndex : Nat, count < fuel →
      entryIndex < blockCapacity (start + count) →
      findSlot fuel start (sumBlockCapacity start count + entryIndex)
        = some { blockIndex := start + count, entryIndex := entryIndex } := by
  induction count with
  | zero =>
    intro fuel start entryIndex hfuel hentry
    match fuel, hfuel with
    | f + 1, _ =>
      simp only [sumBlockCapacity, Nat.zero_add, findSlot]
      rw [if_pos (by simpa using hentry)]
      simp
  | succ n ih =>
    intro fuel start entryIndex hfuel hentry
    match fuel, hfuel with
    | f + 1, hfuel =>
      have hn : n < f := Nat.lt_of_succ_lt_succ hfuel
      have hkey : ¬(sumBlockCapacity start (n + 1) + entryIndex
          < blockCapacity start) := by
        simp only [sumBlockCapacity]
        omega
      simp only [findSlot, if_neg hkey]
      have hsub : sumBlockCapacity start (n + 1) + entryIndex
          - blockCapacity start
          = sumBlockCapacity (start + 1) n + entryIndex := by
        simp only [sumBlockCapacity]
        omega
      rw [hsub]
      have := ih f (start + 1) entryIndex hn
        (by
          have : start + 1 + n = start + (n + 1) := by omega
          rw [this]
          exact hentry)
      rw [this]
      congr 2
      omega

/-- C8: for every live pool slot handed out by `Allocate()` — i.e. any
slot with a valid block index (< 27) and entry index within its block's
capacity — converting the pointer to its key and back yields the same
pointer: `GetPtrFromKey (GetKeyFromPtr p) = p`. -/
theorem C8_pool_key_roundtrip (p : PoolSlot)
    (hblock : p.blockIndex < POOL_MAX_BLOCK_COUNT)
    (hentry : p.entryIndex < blockCapacity p.blockIndex) :
    GetPtrFromKey (GetKeyFromPtr p) = some p := by
  unfold GetPtrFromKey GetKeyFromPtr
  have := findSlot_sumBlockCapacity p.blockIndex POOL_MAX_BLOCK_COUNT 0
    p.entryIndex hblock (by simpa using hentry)
  simpa using this

/-- Witness for C8 at the concrete slot (block 2, entry 57): its key is
32 + 64 + 57 = 153 and decodes back to the same slot. -/
theorem C8_pool_key_roundtrip_witness :
    GetKeyFromPtr { blockIndex := 2, entryIndex := 57 } = 153 ∧
    GetPtrFromKey 153 = some { blockIndex := 2, entryIndex := 57 } := by
  constructor
  · decide
  · have h := C8_pool_key_roundtrip { blockIndex := 2, entryIndex := 57 }
      (by decide) (by decide)
    have hk : GetKeyFromPtr { blockIndex := 2, entryIndex := 57 } = 153 := by
      decide
    rw [hk] at h
    exact h

end Dali
